import Mathlib

/-!
Shallow embedding of the payment-notification pipeline from
`design_patterns_in_python` (src/solid_principles), covering the four
variants the claims reference: `initial_code.py`, `refactoring_code.py`,
`open_close/after.py` and `liskov_substitution/after.py`.

External collaborators (Stripe, SMTP, Twilio, the log file) are modelled
as parameters giving the outcome of each outbound call, and every
outbound call or write is recorded as an `Effect` in an ordered trace.
Python dict truthiness (`if not d.get(k)`) is modelled exactly: a string
field is falsy when absent or empty, a dict is falsy when absent or
empty (it may be non-empty while holding neither `email` nor `phone`,
hence `otherKeys`).
-/

/-- A Python dict value for `contact_info`: the `email` and `phone`
keys are each absent (`none`) or mapped to a string, and the dict may
hold further unrelated keys (`otherKeys`), which keep it truthy. -/
structure ContactDict where
  email : Option String
  phone : Option String
  otherKeys : List String
deriving DecidableEq, Repr

/-- The dict-shaped customer record of `initial_code.py` and
`refactoring_code.py`: `name` and `contact_info` keys may be absent. -/
structure CustomerDict where
  name : Option String
  contact_info : Option ContactDict
deriving DecidableEq, Repr

/-- The dict-shaped payment record: `amount` (int) and an optional
`source` key. -/
structure PaymentDict where
  amount : Int
  source : Option String
deriving DecidableEq, Repr

/-- Python truthiness of an optional string: falsy iff absent or `""`. -/
def strTruthy : Option String → Bool
  | none => false
  | some s => !(s == "")

/-- Python truthiness of an optional dict: falsy iff absent or empty. -/
def contactTruthy : Option ContactDict → Bool
  | none => false
  | some c => c.email.isSome || c.phone.isSome || !c.otherKeys.isEmpty

/-- The Stripe charge object, as the code uses it: only
`charge['status']` is read. -/
structure Charge where
  status : String
deriving DecidableEq, Repr

/-- A `stripe.StripeError` raised by the gateway call. -/
structure StripeError where
  reason : String
deriving DecidableEq, Repr

/-- Python exceptions crossing function boundaries in the pipelines. -/
inductive PyExc where
  | valueError (msg : String)
  | stripeError (msg : String)
  | notifyExc (msg : String)
  | fileError (msg : String)
deriving DecidableEq, Repr

/-- The message carried by an exception. -/
def PyExc.msg : PyExc → String
  | .valueError m => m
  | .stripeError m => m
  | .notifyExc m => m
  | .fileError m => m

/-- Observable side effects of one `process_transaction` run, in order:
the outbound Stripe charge call, a notification-send attempt through
SMTP or Twilio, one line appended to `transactions.log`, or a console
print. -/
inductive Effect where
  | chargeCall (amount : Int) (source : String) (description : String)
  | emailSend (dest : String)
  | smsSend (dest : String)
  | logWrite (line : String)
  | message (text : String)
deriving DecidableEq, Repr

/-- Number of gateway charge calls in a trace. -/
def countChargeCalls (l : List Effect) : Nat :=
  (l.filter fun e => match e with | .chargeCall _ _ _ => true | _ => false).length

/-- Number of email-send attempts in a trace. -/
def countEmailSends (l : List Effect) : Nat :=
  (l.filter fun e => match e with | .emailSend _ => true | _ => false).length

/-- Number of SMS-send attempts in a trace. -/
def countSmsSends (l : List Effect) : Nat :=
  (l.filter fun e => match e with | .smsSend _ => true | _ => false).length

/-- Number of log-file writes in a trace. -/
def countLogWrites (l : List Effect) : Nat :=
  (l.filter fun e => match e with | .logWrite _ => true | _ => false).length

/-- Embeds `ValidatedCustomerData.validate` (refactoring_code.py:43-56): raises
`ValueError` when `customer_data.get("name")` or
`customer_data.get("contact_info")` is falsy. Pure: no effects. -/
def validateCustomerData (customer_data : CustomerDict) : Except String Unit :=
  if strTruthy customer_data.name = false then
    Except.error "Customer data validation failed: Missing name."
  else if contactTruthy customer_data.contact_info = false then
    Except.error "Customer data validation failed: Missing contact info."
  else Except.ok ()

/-- Embeds `ValidatedPaymentData.validate` (refactoring_code.py:66-77): raises
`ValueError` when `payment_data.get("source")` is falsy. The amount is
never inspected. Pure: no effects. -/
def validatePaymentData (payment_data : PaymentDict) : Except String Unit :=
  if strTruthy payment_data.source = false then
    Except.error "Payment data validation failed: Missing source."
  else Except.ok ()

/-- The two lines `PaymentProcessor._log_transaction`
(initial_code.py:169-173) and `TransactionLogger.log_transaction`
(refactoring_code.py:159-163) append to `transactions.log`:
`f"{name} paid {amount} cents\n"` then `f"Payment status: {status}\n"`. -/
def initialLogLines (name : String) (amount : Int) (status : String) : List String :=
  [name ++ " paid " ++ toString amount ++ " cents\n",
   "Payment status: " ++ status ++ "\n"]

/-- The two lines `TransactionLogger.log` (open_close/after.py:169-171
and liskov_substitution/after.py:211-213) appends:
`f"{name} paid {amount}\n"` then `f"Payment status: {status}\n"`. -/
def ocLogLines (name : String) (amount : Int) (status : String) : List String :=
  [name ++ " paid " ++ toString amount ++ "\n",
   "Payment status: " ++ status ++ "\n"]

/-- Embeds `PaymentProcessor.process_transaction` of initial_code.py:43-100.
`gw` is the outcome of the one outbound `stripe.Charge.create` call and
`logOut` the outcome of the `open`/`write` in `_log_transaction`
(initial_code.py:157-173), which has no try/except: a failing write
raises an uncaught exception to the caller (a failure is modelled as
occurring before any line is written). On every normal path the method
returns `None` (Python bare `return`), never the charge: the value
component is `Except.ok none`, or `Except.error` for the propagated
log-write exception. The SMTP/Twilio internals of
`_send_email_notification` / `_send_sms_notification` are abstracted as
a single send-attempt effect (both helpers swallow their own errors and
print, so they never raise). Note the dispatch tests key membership
(`"email" in contact_info`), and the no-contact branch returns before
`_log_transaction`. -/
def initial_process_transaction (gw : Except StripeError Charge)
    (logOut : Except String Unit)
    (customer_data : CustomerDict) (payment_data : PaymentDict) :
    List Effect × Except PyExc (Option Charge) :=
  if strTruthy customer_data.name = false then
    ([Effect.message "Invalid customer data: missing name"], Except.ok none)
  else if contactTruthy customer_data.contact_info = false then
    ([Effect.message "Invalid customer data: missing contact info"], Except.ok none)
  else if strTruthy payment_data.source = false then
    ([Effect.message "Invalid payment data"], Except.ok none)
  else
    let name := customer_data.name.getD ""
    let chargeEff := Effect.chargeCall payment_data.amount
        (payment_data.source.getD "") ("Charge for " ++ name)
    match gw with
    | Except.error e =>
        ([chargeEff, Effect.message ("Payment failed: " ++ e.reason)], Except.ok none)
    | Except.ok charge =>
        let ci := customer_data.contact_info.getD
          { email := none, phone := none, otherKeys := [] }
        if ci.email.isSome then
          match logOut with
          | Except.error e =>
              ([chargeEff, Effect.message "Payment successful",
                Effect.emailSend (ci.email.getD "")],
               Except.error (PyExc.fileError e))
          | Except.ok _ =>
              ([chargeEff, Effect.message "Payment successful",
                Effect.emailSend (ci.email.getD "")] ++
                (initialLogLines name payment_data.amount charge.status).map Effect.logWrite,
               Except.ok none)
        else if ci.phone.isSome then
          match logOut with
          | Except.error e =>
              ([chargeEff, Effect.message "Payment successful",
                Effect.smsSend (ci.phone.getD "")],
               Except.error (PyExc.fileError e))
          | Except.ok _ =>
              ([chargeEff, Effect.message "Payment successful",
                Effect.smsSend (ci.phone.getD "")] ++
                (initialLogLines name payment_data.amount charge.status).map Effect.logWrite,
               Except.ok none)
        else
          ([chargeEff, Effect.message "Payment successful",
            Effect.message "No valid contact information for notification"],
           Except.ok none)

/-- Embeds `NotificationSender.send_email_notification`
(refactoring_code.py:87-112): attempts one SMTP send (`emailOut` is its
outcome), catches any failure and prints; never raises. -/
def send_email_notification (emailOut : Except String Unit) (email : String) :
    List Effect :=
  Effect.emailSend email ::
    (match emailOut with
     | Except.ok _ => [Effect.message "Email successfully sent."]
     | Except.error e => [Effect.message ("Error while sending email: " ++ e)])

/-- Embeds `NotificationSender.send_sms_notification`
(refactoring_code.py:115-137): attempts one Twilio send (`smsOut` is
its outcome), catches any failure and prints; never raises. -/
def send_sms_notification (smsOut : Except String Unit) (phone : String) :
    List Effect :=
  Effect.smsSend phone ::
    (match smsOut with
     | Except.ok _ => [Effect.message "SMS successfully sent."]
     | Except.error e => [Effect.message ("Error while sending SMS: " ++ e)])

/-- The body of `PaymentService.process_transaction`
(refactoring_code.py:226-238) before the enclosing `except Exception`:
validate customer then payment (each may raise `ValueError`), run the
Stripe charge (`StripePaymentProcessor.process_transaction` re-raises
`StripeError` after printing), dispatch the notification by walrus
truthiness of `contact_info.get("email")` / `.get("phone")`, then
append the two log lines (`logOut` is the file outcome; a failure
raises before any line is written). -/
def refactoredBody (gw : Except StripeError Charge)
    (emailOut smsOut : Except String Unit) (logOut : Except String Unit)
    (customer_data : CustomerDict) (payment_data : PaymentDict) :
    List Effect × Except PyExc Unit :=
  match validateCustomerData customer_data with
  | Except.error m => ([], Except.error (PyExc.valueError m))
  | Except.ok _ =>
  match validatePaymentData payment_data with
  | Except.error m => ([], Except.error (PyExc.valueError m))
  | Except.ok _ =>
    let name := customer_data.name.getD ""
    let chargeEff := Effect.chargeCall payment_data.amount
        (payment_data.source.getD "") ("Charge for " ++ name)
    match gw with
    | Except.error e =>
        ([chargeEff, Effect.message ("Payment processing failed: " ++ e.reason)],
         Except.error (PyExc.stripeError e.reason))
    | Except.ok charge =>
        let ci := customer_data.contact_info.getD
          { email := none, phone := none, otherKeys := [] }
        let notifEffs :=
          if strTruthy ci.email then
            send_email_notification emailOut (ci.email.getD "")
          else if strTruthy ci.phone then
            send_sms_notification smsOut (ci.phone.getD "")
          else [Effect.message "No valid contact info provided."]
        match logOut with
        | Except.error e =>
            (chargeEff :: Effect.message "Payment processed successfully." :: notifEffs,
             Except.error (PyExc.fileError e))
        | Except.ok _ =>
            (chargeEff :: Effect.message "Payment processed successfully." ::
              notifEffs ++
              (initialLogLines name payment_data.amount charge.status).map Effect.logWrite,
             Except.ok ())

/-- Embeds `PaymentService.process_transaction` (refactoring_code.py:215-240):
the whole body sits in `try: ... except Exception as e: print(...)`, so
every exception is caught and the method returns `None` (`Except.ok ()`
models normal return) on every path. -/
def refactored_process_transaction (gw : Except StripeError Charge)
    (emailOut smsOut : Except String Unit) (logOut : Except String Unit)
    (customer_data : CustomerDict) (payment_data : PaymentDict) :
    List Effect × Except PyExc Unit :=
  let r := refactoredBody gw emailOut smsOut logOut customer_data payment_data
  match r.2 with
  | Except.ok _ => (r.1, Except.ok ())
  | Except.error e =>
      (r.1 ++ [Effect.message ("Transaction processing failed: " ++ e.msg)],
       Except.ok ())

/-- Pydantic `ContactInfo` (open_close/after.py:36-45 and
liskov_substitution/after.py:46-58): optional email and phone. -/
structure ContactInfo where
  email : Option String
  phone : Option String
deriving DecidableEq, Repr

/-- Pydantic `CustomerData`: required `name`, required `contact_info`. -/
structure CustomerData where
  name : String
  contact_info : ContactInfo
deriving DecidableEq, Repr

/-- Pydantic `PaymentData`: required `amount` and `source`. -/
structure PaymentData where
  amount : Int
  source : String
deriving DecidableEq, Repr

/-- Which concrete `Notifier` was injected into `PaymentService`
(`EmailNotifier` or `SMSNotifier`). -/
inductive NotifierKind where
  | email
  | sms
deriving DecidableEq, Repr

/-- Embeds `EmailNotifier.send_confirmation` / `SMSNotifier.send_confirmation`
of open_close/after.py:93-150: one send attempt to the corresponding
contact field; any failure is caught and printed, never re-raised. -/
def ocSendConfirmation (k : NotifierKind) (sendOut : Except String Unit)
    (customer_data : CustomerData) : List Effect :=
  match k with
  | NotifierKind.email =>
      Effect.emailSend (customer_data.contact_info.email.getD "") ::
        (match sendOut with
         | Except.ok _ => [Effect.message "Email successfully sent."]
         | Except.error e => [Effect.message ("Error while sending email: " ++ e)])
  | NotifierKind.sms =>
      Effect.smsSend (customer_data.contact_info.phone.getD "") ::
        (match sendOut with
         | Except.ok _ => [Effect.message "SMS successfully sent."]
         | Except.error e => [Effect.message ("Error while sending SMS: " ++ e)])

/-- Embeds `EmailNotifier.send_confirmation` / `SMSNotifier.send_confirmation`
of liskov_substitution/after.py:124-184: same send attempt, but the
`except` block ends in `raise e`, so a failed send re-raises. -/
def lsSendConfirmation (k : NotifierKind) (sendOut : Except String Unit)
    (customer_data : CustomerData) : List Effect × Except PyExc Unit :=
  match k with
  | NotifierKind.email =>
      (Effect.emailSend (customer_data.contact_info.email.getD "") ::
        (match sendOut with
         | Except.ok _ => [Effect.message "Email successfully sent."]
         | Except.error e => [Effect.message ("Error while sending email: " ++ e)]),
       match sendOut with
       | Except.ok _ => Except.ok ()
       | Except.error e => Except.error (PyExc.notifyExc e))
  | NotifierKind.sms =>
      (Effect.smsSend (customer_data.contact_info.phone.getD "") ::
        (match sendOut with
         | Except.ok _ => [Effect.message "SMS successfully sent."]
         | Except.error e => [Effect.message ("Error while sending SMS: " ++ e)]),
       match sendOut with
       | Except.ok _ => Except.ok ()
       | Except.error e => Except.error (PyExc.notifyExc e))

/-- Embeds `PaymentService.process_transaction` of open_close/after.py:238-260.
No validation: the charge is attempted first on every input. A
`StripeError` from the processor is caught and re-raised to the caller;
the notifier swallows its own failures; a log failure (`logOut`) raises
an uncaught file error. On success the Stripe charge object is
returned. -/
def oc_process_transaction (gw : Except StripeError Charge)
    (k : NotifierKind) (sendOut : Except String Unit) (logOut : Except String Unit)
    (customer_data : CustomerData) (payment_data : PaymentData) :
    List Effect × Except PyExc Charge :=
  let chargeEff := Effect.chargeCall payment_data.amount payment_data.source
      ("Charge for " ++ customer_data.name)
  match gw with
  | Except.error e =>
      ([chargeEff, Effect.message ("Payment failed: " ++ e.reason)],
       Except.error (PyExc.stripeError e.reason))
  | Except.ok charge =>
      let notifEffs := ocSendConfirmation k sendOut customer_data
      match logOut with
      | Except.error e =>
          (chargeEff :: Effect.message "Payment successful" :: notifEffs,
           Except.error (PyExc.fileError e))
      | Except.ok _ =>
          (chargeEff :: Effect.message "Payment successful" :: notifEffs ++
            (ocLogLines customer_data.name payment_data.amount charge.status).map
              Effect.logWrite,
           Except.ok charge)

/-- Embeds `PaymentService.process_transaction` of
liskov_substitution/after.py:305-327. As in the open/closed variant, no
validation and charge first; but here the notifiers re-raise on
failure, and `except StripeError` does not catch that exception, so a
notification failure propagates to the caller and skips the log. -/
def ls_process_transaction (gw : Except StripeError Charge)
    (k : NotifierKind) (sendOut : Except String Unit) (logOut : Except String Unit)
    (customer_data : CustomerData) (payment_data : PaymentData) :
    List Effect × Except PyExc Charge :=
  let chargeEff := Effect.chargeCall payment_data.amount payment_data.source
      ("Charge for " ++ customer_data.name)
  match gw with
  | Except.error e =>
      ([chargeEff, Effect.message ("Payment failed: " ++ e.reason)],
       Except.error (PyExc.stripeError e.reason))
  | Except.ok charge =>
      let n := lsSendConfirmation k sendOut customer_data
      match n.2 with
      | Except.error e =>
          (chargeEff :: Effect.message "Payment successful" :: n.1,
           Except.error e)
      | Except.ok _ =>
          match logOut with
          | Except.error e =>
              (chargeEff :: Effect.message "Payment successful" :: n.1,
               Except.error (PyExc.fileError e))
          | Except.ok _ =>
              (chargeEff :: Effect.message "Payment successful" :: n.1 ++
                (ocLogLines customer_data.name payment_data.amount charge.status).map
                  Effect.logWrite,
               Except.ok charge)

/-- A trace with no outbound side effect at all: no gateway charge, no
email or SMS send attempt, and no log-file write. -/
def noExternalEffects (l : List Effect) : Prop :=
  countChargeCalls l = 0 ∧ countEmailSends l = 0 ∧
    countSmsSends l = 0 ∧ countLogWrites l = 0

/-- A trace with no notification-send attempt and no log-file write
(the charge call may be present). -/
def noNotifyNoLog (l : List Effect) : Prop :=
  countEmailSends l = 0 ∧ countSmsSends l = 0 ∧ countLogWrites l = 0

/-- A sample email-only contact dict (concrete instantiations). -/
def annEmailContact : ContactDict :=
  { email := some "a@b.c", phone := none, otherKeys := [] }

/-- A sample valid customer record with an email-only contact. -/
def annCustomer : CustomerDict :=
  { name := some "Ann", contact_info := some annEmailContact }

/-- A sample valid payment record. -/
def tokPayment : PaymentDict := { amount := 100, source := some "tok_visa" }

theorem strTruthy_none : strTruthy none = false := rfl

theorem validateCustomerData_ok_iff (c : CustomerDict) :
    validateCustomerData c = Except.ok () ↔
      (strTruthy c.name = true ∧ contactTruthy c.contact_info = true) := by
  unfold validateCustomerData
  cases h1 : strTruthy c.name <;> cases h2 : contactTruthy c.contact_info <;> simp

theorem validatePaymentData_ok_iff (p : PaymentDict) :
    validatePaymentData p = Except.ok () ↔ strTruthy p.source = true := by
  unfold validatePaymentData
  cases h : strTruthy p.source <;> simp

theorem refactored_success_trace (ch : Charge) (emailOut smsOut : Except String Unit)
    (c : CustomerDict) (p : PaymentDict)
    (hc : validateCustomerData c = Except.ok ())
    (hp : validatePaymentData p = Except.ok ()) :
    ∃ notifEffs,
      (refactored_process_transaction (Except.ok ch) emailOut smsOut (Except.ok ()) c p).1 =
        Effect.chargeCall p.amount (p.source.getD "") ("Charge for " ++ c.name.getD "") ::
          Effect.message "Payment processed successfully." :: notifEffs ++
          (initialLogLines (c.name.getD "") p.amount ch.status).map Effect.logWrite := by
  unfold refactored_process_transaction refactoredBody
  simp [hc, hp]

theorem initial_returns_none (gw : Except StripeError Charge)
    (c : CustomerDict) (p : PaymentDict) :
    (initial_process_transaction gw (Except.ok ()) c p).2 = Except.ok none := by
  unfold initial_process_transaction
  dsimp only
  repeat' split
  all_goals rfl

theorem initial_trace_head (gw : Except StripeError Charge)
    (logOut : Except String Unit) (c : CustomerDict) (p : PaymentDict)
    (h1 : strTruthy c.name = true) (h2 : contactTruthy c.contact_info = true)
    (h3 : strTruthy p.source = true) :
    ∃ rest, (initial_process_transaction gw logOut c p).1 =
      Effect.chargeCall p.amount (p.source.getD "")
        ("Charge for " ++ c.name.getD "") :: rest := by
  unfold initial_process_transaction
  simp only [h1, h2, h3, Bool.true_eq_false, if_false]
  cases gw with
  | error e => exact ⟨_, rfl⟩
  | ok ch =>
    dsimp only
    cases logOut with
    | error e2 =>
      split
      · exact ⟨_, rfl⟩
      · split
        · exact ⟨_, rfl⟩
        · exact ⟨_, rfl⟩
    | ok u =>
      split
      · exact ⟨_, rfl⟩
      · split
        · exact ⟨_, rfl⟩
        · exact ⟨_, rfl⟩

theorem refactored_trace_head (gw : Except StripeError Charge)
    (emailOut smsOut logOut : Except String Unit)
    (c : CustomerDict) (p : PaymentDict)
    (hc : validateCustomerData c = Except.ok ())
    (hp : validatePaymentData p = Except.ok ()) :
    ∃ rest, (refactored_process_transaction gw emailOut smsOut logOut c p).1 =
      Effect.chargeCall p.amount (p.source.getD "")
        ("Charge for " ++ c.name.getD "") :: rest := by
  unfold refactored_process_transaction refactoredBody
  simp only [hc, hp]
  cases gw with
  | error e => exact ⟨_, rfl⟩
  | ok ch =>
    dsimp only
    cases logOut with
    | error e2 => exact ⟨_, rfl⟩
    | ok u => exact ⟨_, rfl⟩

/-- C7: the validators fail with a missing-field `ValueError` exactly
when the customer name is empty/absent, the contact info is entirely
absent (absent key or empty dict), or the payment source is
empty/absent; on all other inputs they return successfully. They are
pure functions of their record (no effect trace, no external call). -/
theorem C7_validator_exactness (c : CustomerDict) (p : PaymentDict) :
    (validateCustomerData c = Except.ok () ↔
       (strTruthy c.name = true ∧ contactTruthy c.contact_info = true)) ∧
    (validatePaymentData p = Except.ok () ↔ strTruthy p.source = true) :=
  ⟨validateCustomerData_ok_iff c, validatePaymentData_ok_iff p⟩

/-- C8: the refactored `PaymentService.process_transaction` wraps its
whole body in `except Exception`, so no exception ever propagates to
the caller and the method returns `None` (modelled `Except.ok ()`) on
every path, whatever the validators, gateway, notifier or logger do. -/
theorem C8_no_exception_escapes (gw : Except StripeError Charge)
    (emailOut smsOut logOut : Except String Unit)
    (c : CustomerDict) (p : PaymentDict) :
    (refactored_process_transaction gw emailOut smsOut logOut c p).2 =
      Except.ok () := by
  unfold refactored_process_transaction
  cases h : (refactoredBody gw emailOut smsOut logOut c p).2 <;> simp [h]

/-- C10: the open/closed and Liskov `PaymentService.process_transaction`
perform no validation step: on every `CustomerData` and `PaymentData`
(empty name and contact-free `ContactInfo` included) the very first
effect is the gateway charge call. -/
theorem C10_no_validation_charge_first (gw : Except StripeError Charge)
    (k : NotifierKind) (sendOut logOut : Except String Unit)
    (cd : CustomerData) (pd : PaymentData) :
    (oc_process_transaction gw k sendOut logOut cd pd).1.head? =
      some (Effect.chargeCall pd.amount pd.source ("Charge for " ++ cd.name)) ∧
    (ls_process_transaction gw k sendOut logOut cd pd).1.head? =
      some (Effect.chargeCall pd.amount pd.source ("Charge for " ++ cd.name)) := by
  cases gw <;> cases k <;> cases sendOut <;> cases logOut <;>
    simp [oc_process_transaction, ls_process_transaction, ocSendConfirmation,
      lsSendConfirmation]

/-- C5 counterexample: the logger of initial_code.py and
refactoring_code.py appends `"Jane Doe paid 1500 cents\n"`, not the
claimed literal line `"Jane Doe paid 1500\n"`. -/
theorem C5_counterexample :
    initialLogLines "Jane Doe" 1500 "succeeded" ≠
      ["Jane Doe paid 1500\n", "Payment status: succeeded\n"] := by
  decide

/-- C5 amended: the open/closed and Liskov `TransactionLogger.log`
writes exactly the two claimed literal lines for name "Jane Doe",
amount 1500 and status "succeeded"; the initial and refactored logger
writes `"Jane Doe paid 1500 cents\n"` (with a trailing ` cents`) as its
first line instead. -/
theorem C5_amended_log_lines :
    ocLogLines "Jane Doe" 1500 "succeeded" =
      ["Jane Doe paid 1500\n", "Payment status: succeeded\n"] ∧
    initialLogLines "Jane Doe" 1500 "succeeded" =
      ["Jane Doe paid 1500 cents\n", "Payment status: succeeded\n"] := by
  constructor <;> rfl

/-- C1 counterexample: a customer whose `contact_info` dict is
non-empty but holds neither an `email` nor a `phone` key (here only a
`fax` key) passes validation, and `process_transaction` performs the
gateway charge call instead of aborting. -/
theorem C1_counterexample :
    countChargeCalls (initial_process_transaction
      (Except.ok { status := "succeeded" }) (Except.ok ())
      { name := some "Ann",
        contact_info := some { email := none, phone := none, otherKeys := ["fax"] } }
      { amount := 100, source := some "tok_visa" }).1 = 1 := by
  decide

/-- C1 amended: for every customer record whose name is empty/absent or
whose `contact_info` dict is absent or empty (Python-falsy), and every
payment record, the initial and refactored `process_transaction` abort
during validation: no gateway charge call, no notification send and no
log-file write occur. (A non-empty `contact_info` lacking both `email`
and `phone` passes validation and the charge is attempted.) -/
theorem C1_amended_validation_abort (gw : Except StripeError Charge)
    (logOutI emailOut smsOut logOut : Except String Unit)
    (c : CustomerDict) (p : PaymentDict)
    (h : strTruthy c.name = false ∨ contactTruthy c.contact_info = false) :
    noExternalEffects (initial_process_transaction gw logOutI c p).1 ∧
    noExternalEffects (refactored_process_transaction gw emailOut smsOut logOut c p).1 := by
  have hinit : ∃ t, (initial_process_transaction gw logOutI c p).1 = [Effect.message t] := by
    unfold initial_process_transaction
    rcases h with h | h
    · exact ⟨"Invalid customer data: missing name", by simp [h]⟩
    · cases h1 : strTruthy c.name
      · exact ⟨"Invalid customer data: missing name", by simp [h1]⟩
      · exact ⟨"Invalid customer data: missing contact info", by simp [h1, h]⟩
  have hcv : ∃ m, validateCustomerData c = Except.error m := by
    unfold validateCustomerData
    rcases h with h | h
    · exact ⟨"Customer data validation failed: Missing name.", by simp [h]⟩
    · cases h1 : strTruthy c.name
      · exact ⟨"Customer data validation failed: Missing name.", by simp [h1]⟩
      · exact ⟨"Customer data validation failed: Missing contact info.", by simp [h1, h]⟩
  obtain ⟨t, ht⟩ := hinit
  obtain ⟨m, hm⟩ := hcv
  have href : ∃ u, (refactored_process_transaction gw emailOut smsOut logOut c p).1 =
      [Effect.message u] := by
    unfold refactored_process_transaction refactoredBody
    exact ⟨"Transaction processing failed: " ++ (PyExc.valueError m).msg, by simp [hm]⟩
  obtain ⟨u, hu⟩ := href
  rw [noExternalEffects, noExternalEffects, ht, hu]
  simp [countChargeCalls, countEmailSends, countSmsSends, countLogWrites]

/-- Witness for C1 amended: a concrete empty-name customer. -/
theorem C1_amended_validation_abort_witness :
    noExternalEffects (initial_process_transaction
      (Except.ok { status := "succeeded" }) (Except.ok ())
      { name := some "",
        contact_info := some { email := some "a@b.c", phone := none, otherKeys := [] } }
      { amount := 100, source := some "tok_visa" }).1 ∧
    noExternalEffects (refactored_process_transaction
      (Except.ok { status := "succeeded" })
      (Except.ok ()) (Except.ok ()) (Except.ok ())
      { name := some "",
        contact_info := some { email := some "a@b.c", phone := none, otherKeys := [] } }
      { amount := 100, source := some "tok_visa" }).1 :=
  C1_amended_validation_abort (Except.ok { status := "succeeded" })
    (Except.ok ()) (Except.ok ()) (Except.ok ()) (Except.ok ()) _ _
    (Or.inl (by decide))

/-- C2 counterexample: on a valid input with a failing gateway, the
refactored `PaymentService.process_transaction` swallows the
`StripeError` in its `except Exception` block and returns `None`
(`Except.ok ()`): no typed gateway error reaches the caller. -/
theorem C2_counterexample :
    (refactored_process_transaction
      (Except.error { reason := "card declined" })
      (Except.ok ()) (Except.ok ()) (Except.ok ())
      { name := some "Ann",
        contact_info := some { email := some "a@b.c", phone := none, otherKeys := [] } }
      { amount := 100, source := some "tok_visa" }).2 = Except.ok () := by
  rfl

/-- C2 amended: for every input passing validation, if the gateway
charge fails then no notification send and no log-file write occur in
any variant; the open/closed and Liskov variants propagate the typed
`StripeError` to the caller, while the initial variant returns `None`
and the refactored variant catches the error and returns `None`. -/
theorem C2_amended_gateway_failure (e : StripeError)
    (logOutI emailOut smsOut logOut : Except String Unit)
    (c : CustomerDict) (p : PaymentDict)
    (k : NotifierKind) (sendOut logOut2 : Except String Unit)
    (cd : CustomerData) (pd : PaymentData)
    (hc : validateCustomerData c = Except.ok ())
    (hp : validatePaymentData p = Except.ok ()) :
    (noNotifyNoLog (initial_process_transaction (Except.error e) logOutI c p).1 ∧
      (initial_process_transaction (Except.error e) logOutI c p).2 = Except.ok none) ∧
    (noNotifyNoLog (refactored_process_transaction (Except.error e)
        emailOut smsOut logOut c p).1 ∧
      (refactored_process_transaction (Except.error e)
        emailOut smsOut logOut c p).2 = Except.ok ()) ∧
    (noNotifyNoLog (oc_process_transaction (Except.error e) k sendOut logOut2 cd pd).1 ∧
      (oc_process_transaction (Except.error e) k sendOut logOut2 cd pd).2 =
        Except.error (PyExc.stripeError e.reason)) ∧
    (noNotifyNoLog (ls_process_transaction (Except.error e) k sendOut logOut2 cd pd).1 ∧
      (ls_process_transaction (Except.error e) k sendOut logOut2 cd pd).2 =
        Except.error (PyExc.stripeError e.reason)) := by
  obtain ⟨h1, h2⟩ := (validateCustomerData_ok_iff c).mp hc
  have h3 := (validatePaymentData_ok_iff p).mp hp
  refine ⟨?_, ?_, ?_, ?_⟩
  · constructor <;>
      simp [initial_process_transaction, h1, h2, h3, noNotifyNoLog,
        countEmailSends, countSmsSends, countLogWrites]
  · constructor <;>
      simp [refactored_process_transaction, refactoredBody, hc, hp, noNotifyNoLog,
        countEmailSends, countSmsSends, countLogWrites]
  · constructor <;>
      simp [oc_process_transaction, noNotifyNoLog,
        countEmailSends, countSmsSends, countLogWrites]
  · constructor <;>
      simp [ls_process_transaction, noNotifyNoLog,
        countEmailSends, countSmsSends, countLogWrites]

/-- Witness for C2 amended: a concrete valid customer and payment with
a declined card. -/
theorem C2_amended_gateway_failure_witness :
    (noNotifyNoLog (initial_process_transaction
        (Except.error { reason := "card declined" }) (Except.ok ())
        { name := some "Ann",
          contact_info := some { email := some "a@b.c", phone := none, otherKeys := [] } }
        { amount := 100, source := some "tok_visa" }).1 ∧
      (initial_process_transaction (Except.error { reason := "card declined" })
        (Except.ok ())
        { name := some "Ann",
          contact_info := some { email := some "a@b.c", phone := none, otherKeys := [] } }
        { amount := 100, source := some "tok_visa" }).2 = Except.ok none) ∧
    (noNotifyNoLog (refactored_process_transaction
        (Except.error { reason := "card declined" })
        (Except.ok ()) (Except.ok ()) (Except.ok ())
        { name := some "Ann",
          contact_info := some { email := some "a@b.c", phone := none, otherKeys := [] } }
        { amount := 100, source := some "tok_visa" }).1 ∧
      (refactored_process_transaction (Except.error { reason := "card declined" })
        (Except.ok ()) (Except.ok ()) (Except.ok ())
        { name := some "Ann",
          contact_info := some { email := some "a@b.c", phone := none, otherKeys := [] } }
        { amount := 100, source := some "tok_visa" }).2 = Except.ok ()) ∧
    (noNotifyNoLog (oc_process_transaction (Except.error { reason := "card declined" })
        NotifierKind.email (Except.ok ()) (Except.ok ())
        { name := "Ann", contact_info := { email := some "a@b.c", phone := none } }
        { amount := 100, source := "tok_visa" }).1 ∧
      (oc_process_transaction (Except.error { reason := "card declined" })
        NotifierKind.email (Except.ok ()) (Except.ok ())
        { name := "Ann", contact_info := { email := some "a@b.c", phone := none } }
        { amount := 100, source := "tok_visa" }).2 =
          Except.error (PyExc.stripeError "card declined")) ∧
    (noNotifyNoLog (ls_process_transaction (Except.error { reason := "card declined" })
        NotifierKind.email (Except.ok ()) (Except.ok ())
        { name := "Ann", contact_info := { email := some "a@b.c", phone := none } }
        { amount := 100, source := "tok_visa" }).1 ∧
      (ls_process_transaction (Except.error { reason := "card declined" })
        NotifierKind.email (Except.ok ()) (Except.ok ())
        { name := "Ann", contact_info := { email := some "a@b.c", phone := none } }
        { amount := 100, source := "tok_visa" }).2 =
          Except.error (PyExc.stripeError "card declined")) :=
  C2_amended_gateway_failure { reason := "card declined" }
    (Except.ok ()) (Except.ok ()) (Except.ok ()) (Except.ok ()) _ _
    NotifierKind.email (Except.ok ()) (Except.ok ()) _ _ (by rfl) (by rfl)

/-- C3 counterexample: in the Liskov variant, after a successful charge
a failing email send re-raises (`EmailNotifier.send_confirmation` ends
its handler with `raise e`), `PaymentService.process_transaction` only
catches `StripeError`, so the transaction ends in a propagated
exception and the log append never happens. -/
theorem C3_counterexample :
    (ls_process_transaction (Except.ok { status := "succeeded" })
      NotifierKind.email (Except.error "smtp unreachable") (Except.ok ())
      { name := "Ann", contact_info := { email := some "a@b.c", phone := none } }
      { amount := 100, source := "tok_visa" }).2 =
        Except.error (PyExc.notifyExc "smtp unreachable") ∧
    countLogWrites (ls_process_transaction (Except.ok { status := "succeeded" })
      NotifierKind.email (Except.error "smtp unreachable") (Except.ok ())
      { name := "Ann", contact_info := { email := some "a@b.c", phone := none } }
      { amount := 100, source := "tok_visa" }).1 = 0 :=
  ⟨rfl, rfl⟩

/-- C3 amended: in the refactored variant a notification failure after
a successful charge is caught inside `NotificationSender`, the final
result is still a normal (non-error) return and the log append occurs;
in the Liskov variant the notifier re-raises, the exception propagates
past `except StripeError`, and the log append is skipped. -/
theorem C3_amended_notification_failure (ch : Charge) (err : String)
    (smsOut : Except String Unit) (c : CustomerDict) (p : PaymentDict)
    (k : NotifierKind) (logOut2 : Except String Unit)
    (cd : CustomerData) (pd : PaymentData)
    (hc : validateCustomerData c = Except.ok ())
    (hp : validatePaymentData p = Except.ok ()) :
    ((refactored_process_transaction (Except.ok ch) (Except.error err) smsOut
        (Except.ok ()) c p).2 = Except.ok () ∧
      Effect.logWrite ("Payment status: " ++ ch.status ++ "\n") ∈
        (refactored_process_transaction (Except.ok ch) (Except.error err) smsOut
          (Except.ok ()) c p).1) ∧
    ((ls_process_transaction (Except.ok ch) k (Except.error err) logOut2 cd pd).2 =
        Except.error (PyExc.notifyExc err) ∧
      countLogWrites
        (ls_process_transaction (Except.ok ch) k (Except.error err) logOut2 cd pd).1 = 0) := by
  refine ⟨⟨?_, ?_⟩, ?_⟩
  · cases h : (refactoredBody (Except.ok ch) (Except.error err) smsOut
        (Except.ok ()) c p).2 <;>
      simp [refactored_process_transaction, h]
  · obtain ⟨notifEffs, htr⟩ :=
      refactored_success_trace ch (Except.error err) smsOut c p hc hp
    rw [htr]
    simp [initialLogLines]
  · cases k <;>
      simp [ls_process_transaction, lsSendConfirmation, countLogWrites]

/-- Witness for C3 amended: a concrete valid email customer whose SMTP
send fails after a successful charge. -/
theorem C3_amended_notification_failure_witness :
    ((refactored_process_transaction (Except.ok { status := "succeeded" })
        (Except.error "smtp unreachable") (Except.ok ()) (Except.ok ())
        { name := some "Ann",
          contact_info := some { email := some "a@b.c", phone := none, otherKeys := [] } }
        { amount := 100, source := some "tok_visa" }).2 = Except.ok () ∧
      Effect.logWrite ("Payment status: " ++ "succeeded" ++ "\n") ∈
        (refactored_process_transaction (Except.ok { status := "succeeded" })
          (Except.error "smtp unreachable") (Except.ok ()) (Except.ok ())
          { name := some "Ann",
            contact_info := some { email := some "a@b.c", phone := none, otherKeys := [] } }
          { amount := 100, source := some "tok_visa" }).1) ∧
    ((ls_process_transaction (Except.ok { status := "succeeded" })
        NotifierKind.sms (Except.error "smtp unreachable") (Except.ok ())
        { name := "Bob", contact_info := { email := none, phone := some "+5491" } }
        { amount := 200, source := "tok_mc" }).2 =
          Except.error (PyExc.notifyExc "smtp unreachable") ∧
      countLogWrites (ls_process_transaction (Except.ok { status := "succeeded" })
        NotifierKind.sms (Except.error "smtp unreachable") (Except.ok ())
        { name := "Bob", contact_info := { email := none, phone := some "+5491" } }
        { amount := 200, source := "tok_mc" }).1 = 0) :=
  C3_amended_notification_failure { status := "succeeded" } "smtp unreachable"
    (Except.ok ()) _ _ NotifierKind.sms (Except.ok ()) _ _ (by rfl) (by rfl)

/-- C6 counterexample: the initial `PaymentProcessor.process_transaction`
returns `None` (a normal return carrying no charge) even when
validation passes, the gateway charge succeeds and the log write
succeeds: the charge result is never returned to the caller. -/
theorem C6_counterexample :
    (initial_process_transaction (Except.ok { status := "succeeded" }) (Except.ok ())
      { name := some "Ann",
        contact_info := some { email := some "a@b.c", phone := none, otherKeys := [] } }
      { amount := 100, source := some "tok_visa" }).2 = Except.ok none :=
  rfl

/-- C6 amended: for every input passing validation, on a successful
charge the open/closed `PaymentService.process_transaction` completes
the pipeline (the status log line is appended, the log write
succeeding) and returns the gateway's `Charge` to the caller; the
initial variant completes the pipeline but returns `None` (when its
log write succeeds; a log-write failure would instead propagate as an
uncaught exception), and the refactored variant returns `None` as well
(its log append still occurs). -/
theorem C6_amended_success_return (ch : Charge) (k : NotifierKind)
    (sendOut : Except String Unit) (cd : CustomerData) (pd : PaymentData)
    (emailOut smsOut : Except String Unit)
    (c : CustomerDict) (p : PaymentDict)
    (hc : validateCustomerData c = Except.ok ())
    (hp : validatePaymentData p = Except.ok ()) :
    ((oc_process_transaction (Except.ok ch) k sendOut (Except.ok ()) cd pd).2 =
        Except.ok ch ∧
      Effect.logWrite ("Payment status: " ++ ch.status ++ "\n") ∈
        (oc_process_transaction (Except.ok ch) k sendOut (Except.ok ()) cd pd).1) ∧
    (initial_process_transaction (Except.ok ch) (Except.ok ()) c p).2 =
      Except.ok none ∧
    ((refactored_process_transaction (Except.ok ch) emailOut smsOut
        (Except.ok ()) c p).2 = Except.ok () ∧
      Effect.logWrite ("Payment status: " ++ ch.status ++ "\n") ∈
        (refactored_process_transaction (Except.ok ch) emailOut smsOut
          (Except.ok ()) c p).1) := by
  refine ⟨⟨?_, ?_⟩, ?_, ?_, ?_⟩
  · rfl
  · cases k <;> cases sendOut <;>
      simp [oc_process_transaction, ocSendConfirmation, ocLogLines]
  · exact initial_returns_none _ _ _
  · cases h : (refactoredBody (Except.ok ch) emailOut smsOut (Except.ok ()) c p).2 <;>
      simp [refactored_process_transaction, h]
  · obtain ⟨notifEffs, htr⟩ := refactored_success_trace ch emailOut smsOut c p hc hp
    rw [htr]
    simp [initialLogLines]

/-- Witness for C6 amended: a concrete email customer with a succeeding
gateway. -/
theorem C6_amended_success_return_witness :
    ((oc_process_transaction (Except.ok { status := "succeeded" })
        NotifierKind.email (Except.ok ()) (Except.ok ())
        { name := "Ann", contact_info := { email := some "a@b.c", phone := none } }
        { amount := 100, source := "tok_visa" }).2 =
          Except.ok { status := "succeeded" } ∧
      Effect.logWrite ("Payment status: " ++ "succeeded" ++ "\n") ∈
        (oc_process_transaction (Except.ok { status := "succeeded" })
          NotifierKind.email (Except.ok ()) (Except.ok ())
          { name := "Ann", contact_info := { email := some "a@b.c", phone := none } }
          { amount := 100, source := "tok_visa" }).1) ∧
    (initial_process_transaction (Except.ok { status := "succeeded" }) (Except.ok ())
      { name := some "Ann",
        contact_info := some { email := some "a@b.c", phone := none, otherKeys := [] } }
      { amount := 100, source := some "tok_visa" }).2 = Except.ok none ∧
    ((refactored_process_transaction (Except.ok { status := "succeeded" })
        (Except.ok ()) (Except.ok ()) (Except.ok ())
        { name := some "Ann",
          contact_info := some { email := some "a@b.c", phone := none, otherKeys := [] } }
        { amount := 100, source := some "tok_visa" }).2 = Except.ok () ∧
      Effect.logWrite ("Payment status: " ++ "succeeded" ++ "\n") ∈
        (refactored_process_transaction (Except.ok { status := "succeeded" })
          (Except.ok ()) (Except.ok ()) (Except.ok ())
          { name := some "Ann",
            contact_info := some { email := some "a@b.c", phone := none, otherKeys := [] } }
          { amount := 100, source := some "tok_visa" }).1) :=
  C6_amended_success_return { status := "succeeded" } NotifierKind.email
    (Except.ok ()) _ _ (Except.ok ()) (Except.ok ()) _ _ (by rfl) (by rfl)

/-- C9: payment validation never inspects the amount: for every amount
(zero and negative included) and non-empty source the validator
succeeds, and the amount reaches the gateway charge call unchanged in
both the initial and the refactored pipeline. -/
theorem C9_amount_never_validated (a : Int) (s : String) (hs : s ≠ "")
    (gw : Except StripeError Charge)
    (logOutI emailOut smsOut logOut : Except String Unit)
    (c : CustomerDict) (hc : validateCustomerData c = Except.ok ()) :
    validatePaymentData { amount := a, source := some s } = Except.ok () ∧
    Effect.chargeCall a s ("Charge for " ++ c.name.getD "") ∈
      (initial_process_transaction gw logOutI c { amount := a, source := some s }).1 ∧
    Effect.chargeCall a s ("Charge for " ++ c.name.getD "") ∈
      (refactored_process_transaction gw emailOut smsOut logOut c
        { amount := a, source := some s }).1 := by
  have h3 : strTruthy (some s) = true := by simp [strTruthy, hs]
  obtain ⟨h1, h2⟩ := (validateCustomerData_ok_iff c).mp hc
  have hp : validatePaymentData { amount := a, source := some s } = Except.ok () :=
    (validatePaymentData_ok_iff _).mpr h3
  refine ⟨hp, ?_, ?_⟩
  · obtain ⟨rest, hr⟩ :=
      initial_trace_head gw logOutI c { amount := a, source := some s } h1 h2 h3
    rw [hr]
    simp
  · obtain ⟨rest, hr⟩ :=
      refactored_trace_head gw emailOut smsOut logOut c
        { amount := a, source := some s } hc hp
    rw [hr]
    simp

/-- C4: after a successful charge, channel selection is a function of
the contact fields (for contact values that are non-empty when set,
i.e. `strTruthy = isSome`): with an email present exactly one email
send and no SMS send is attempted (email preferred even when a phone is
also present); with only a phone, exactly one SMS send; with neither,
zero sends, the "no contact" console outcome is recorded and the
refactored pipeline still returns normally. Proved for the initial and
refactored variants, whose dispatch reads the contact dict. -/
theorem C4_channel_selection (ch : Charge) (emailOut smsOut : Except String Unit)
    (c : CustomerDict) (ci : ContactDict) (p : PaymentDict)
    (hci : c.contact_info = some ci)
    (hc : validateCustomerData c = Except.ok ())
    (hp : validatePaymentData p = Except.ok ())
    (hE : strTruthy ci.email = ci.email.isSome)
    (hP : strTruthy ci.phone = ci.phone.isSome) :
    (ci.email.isSome = true →
      countEmailSends (initial_process_transaction (Except.ok ch) (Except.ok ()) c p).1 = 1 ∧
      countSmsSends (initial_process_transaction (Except.ok ch) (Except.ok ()) c p).1 = 0 ∧
      countEmailSends (refactored_process_transaction (Except.ok ch) emailOut smsOut
        (Except.ok ()) c p).1 = 1 ∧
      countSmsSends (refactored_process_transaction (Except.ok ch) emailOut smsOut
        (Except.ok ()) c p).1 = 0) ∧
    (ci.email = none → ci.phone.isSome = true →
      countSmsSends (initial_process_transaction (Except.ok ch) (Except.ok ()) c p).1 = 1 ∧
      countEmailSends (initial_process_transaction (Except.ok ch) (Except.ok ()) c p).1 = 0 ∧
      countSmsSends (refactored_process_transaction (Except.ok ch) emailOut smsOut
        (Except.ok ()) c p).1 = 1 ∧
      countEmailSends (refactored_process_transaction (Except.ok ch) emailOut smsOut
        (Except.ok ()) c p).1 = 0) ∧
    (ci.email = none → ci.phone = none →
      countEmailSends (initial_process_transaction (Except.ok ch) (Except.ok ()) c p).1 = 0 ∧
      countSmsSends (initial_process_transaction (Except.ok ch) (Except.ok ()) c p).1 = 0 ∧
      Effect.message "No valid contact information for notification" ∈
        (initial_process_transaction (Except.ok ch) (Except.ok ()) c p).1 ∧
      countEmailSends (refactored_process_transaction (Except.ok ch) emailOut smsOut
        (Except.ok ()) c p).1 = 0 ∧
      countSmsSends (refactored_process_transaction (Except.ok ch) emailOut smsOut
        (Except.ok ()) c p).1 = 0 ∧
      Effect.message "No valid contact info provided." ∈
        (refactored_process_transaction (Except.ok ch) emailOut smsOut
          (Except.ok ()) c p).1 ∧
      (refactored_process_transaction (Except.ok ch) emailOut smsOut
        (Except.ok ()) c p).2 = Except.ok ()) := by
  obtain ⟨h1, h2⟩ := (validateCustomerData_ok_iff c).mp hc
  have h3 := (validatePaymentData_ok_iff p).mp hp
  rw [hci] at h2
  refine ⟨?_, ?_, ?_⟩
  · intro hes
    cases hm : ci.email with
    | none => rw [hm] at hes; simp at hes
    | some s =>
      have hstr : strTruthy (some s) = true := by rw [← hm, hE]; exact hes
      cases emailOut <;>
        simp [initial_process_transaction, refactored_process_transaction,
          refactoredBody, hc, hp, h1, h2, h3, hci, hm, hstr,
          send_email_notification, countEmailSends, countSmsSends, initialLogLines]
  · intro hen hps
    cases hm : ci.phone with
    | none => rw [hm] at hps; simp at hps
    | some s =>
      have hstr : strTruthy (some s) = true := by rw [← hm, hP]; exact hps
      cases smsOut <;>
        simp [initial_process_transaction, refactored_process_transaction,
          refactoredBody, hc, hp, h1, h2, h3, hci, hen, hm, hstr, strTruthy_none,
          send_sms_notification, countEmailSends, countSmsSends, initialLogLines]
  · intro hen hpn
    simp [initial_process_transaction, refactored_process_transaction,
      refactoredBody, hc, hp, h1, h2, h3, hci, hen, hpn, strTruthy_none,
      countEmailSends, countSmsSends, initialLogLines]

/-- Witness for C4: the email-only sample customer with a succeeding
charge. -/
theorem C4_channel_selection_witness :
    (annEmailContact.email.isSome = true →
      countEmailSends (initial_process_transaction
        (Except.ok { status := "succeeded" }) (Except.ok ()) annCustomer tokPayment).1 = 1 ∧
      countSmsSends (initial_process_transaction
        (Except.ok { status := "succeeded" }) (Except.ok ()) annCustomer tokPayment).1 = 0 ∧
      countEmailSends (refactored_process_transaction
        (Except.ok { status := "succeeded" }) (Except.ok ()) (Except.ok ())
        (Except.ok ()) annCustomer tokPayment).1 = 1 ∧
      countSmsSends (refactored_process_transaction
        (Except.ok { status := "succeeded" }) (Except.ok ()) (Except.ok ())
        (Except.ok ()) annCustomer tokPayment).1 = 0) ∧
    (annEmailContact.email = none → annEmailContact.phone.isSome = true →
      countSmsSends (initial_process_transaction
        (Except.ok { status := "succeeded" }) (Except.ok ()) annCustomer tokPayment).1 = 1 ∧
      countEmailSends (initial_process_transaction
        (Except.ok { status := "succeeded" }) (Except.ok ()) annCustomer tokPayment).1 = 0 ∧
      countSmsSends (refactored_process_transaction
        (Except.ok { status := "succeeded" }) (Except.ok ()) (Except.ok ())
        (Except.ok ()) annCustomer tokPayment).1 = 1 ∧
      countEmailSends (refactored_process_transaction
        (Except.ok { status := "succeeded" }) (Except.ok ()) (Except.ok ())
        (Except.ok ()) annCustomer tokPayment).1 = 0) ∧
    (annEmailContact.email = none → annEmailContact.phone = none →
      countEmailSends (initial_process_transaction
        (Except.ok { status := "succeeded" }) (Except.ok ()) annCustomer tokPayment).1 = 0 ∧
      countSmsSends (initial_process_transaction
        (Except.ok { status := "succeeded" }) (Except.ok ()) annCustomer tokPayment).1 = 0 ∧
      Effect.message "No valid contact information for notification" ∈
        (initial_process_transaction
          (Except.ok { status := "succeeded" }) (Except.ok ()) annCustomer tokPayment).1 ∧
      countEmailSends (refactored_process_transaction
        (Except.ok { status := "succeeded" }) (Except.ok ()) (Except.ok ())
        (Except.ok ()) annCustomer tokPayment).1 = 0 ∧
      countSmsSends (refactored_process_transaction
        (Except.ok { status := "succeeded" }) (Except.ok ()) (Except.ok ())
        (Except.ok ()) annCustomer tokPayment).1 = 0 ∧
      Effect.message "No valid contact info provided." ∈
        (refactored_process_transaction
          (Except.ok { status := "succeeded" }) (Except.ok ()) (Except.ok ())
          (Except.ok ()) annCustomer tokPayment).1 ∧
      (refactored_process_transaction
        (Except.ok { status := "succeeded" }) (Except.ok ()) (Except.ok ())
        (Except.ok ()) annCustomer tokPayment).2 = Except.ok ()) :=
  C4_channel_selection { status := "succeeded" } (Except.ok ()) (Except.ok ())
    annCustomer annEmailContact tokPayment (by rfl) (by rfl) (by rfl)
    (by rfl) (by rfl)

/-- Witness for C9: a negative amount of -50 with a non-empty source
still validates and is charged as-is. -/
theorem C9_amount_never_validated_witness :
    validatePaymentData { amount := -50, source := some "tok_visa" } = Except.ok () ∧
    Effect.chargeCall (-50) "tok_visa" ("Charge for " ++ "Ann") ∈
      (initial_process_transaction (Except.ok { status := "succeeded" }) (Except.ok ())
        { name := some "Ann",
          contact_info := some { email := some "a@b.c", phone := none, otherKeys := [] } }
        { amount := -50, source := some "tok_visa" }).1 ∧
    Effect.chargeCall (-50) "tok_visa" ("Charge for " ++ "Ann") ∈
      (refactored_process_transaction (Except.ok { status := "succeeded" })
        (Except.ok ()) (Except.ok ()) (Except.ok ())
        { name := some "Ann",
          contact_info := some { email := some "a@b.c", phone := none, otherKeys := [] } }
        { amount := -50, source := some "tok_visa" }).1 :=
  C9_amount_never_validated (-50) "tok_visa" (by decide)
    (Except.ok { status := "succeeded" }) (Except.ok ()) (Except.ok ()) (Except.ok ())
    (Except.ok ()) _ (by rfl)
